import Mathlib

/-!
Verification of the Locust load-test script `locust.py` (Gin + ScyllaDB API
benchmark).  The script is embedded shallowly:

* `TEST_USER_IDS` models the module-level parsing of the `TEST_USER_IDS`
  environment variable (split on commas, strip whitespace, drop empties,
  default to `DEFAULT_ID` when unset).
* `on_start` models `ApiUser.on_start` (fixed header dictionary).
* `get_user` models one invocation of the `ApiUser.get_user` task: it builds
  the GET request from the head of the id list (an empty list means the
  `TEST_USER_IDS[0]` subscript raises `IndexError`, modelled as issuing no
  request and producing no result), feeds the request to an abstract
  transport `respond`, and classifies the response exactly as the
  `with ... catch_response=True` block does.
* `classify` models the response-classification block, including the Python
  semantics of `"user" not in data` (key lookup on dicts, element equality on
  lists, substring on strings, `TypeError` on scalars, which the surrounding
  `except json.JSONDecodeError` does not catch).
-/

/-- Python whitespace stripped by `str.strip()` (ASCII part). -/
def isPySpace (c : Char) : Bool :=
  c = ' ' || c = '\t' || c = '\n' || c = '\r' || c = '\x0b' || c = '\x0c'

/-- Model of Python `str.strip()` on a list of characters. -/
def pyStrip (cs : List Char) : List Char :=
  ((cs.dropWhile isPySpace).reverse.dropWhile isPySpace).reverse

/-- Model of Python `str.split(",")`: split on every comma, keeping empty
segments; the empty string yields one empty segment. -/
def splitOnComma : List Char → List (List Char)
  | [] => [[]]
  | c :: cs =>
    if c = ',' then [] :: splitOnComma cs
    else
      match splitOnComma cs with
      | [] => [[c]]
      | g :: gs => (c :: g) :: gs

/-- The fixed fallback identifier (`DEFAULT_ID` in `locust.py`). -/
def DEFAULT_ID : String := "6b7bc0ee-af3e-11f0-89c7-52c2e832ce81"

/-- Model of the module-level `TEST_USER_IDS` list, as a function of the
optional value of the `TEST_USER_IDS` environment variable:
`[s.strip() for s in os.getenv("TEST_USER_IDS", DEFAULT_ID).split(",") if s.strip()]`. -/
def TEST_USER_IDS (env : Option String) : List String :=
  let ids_env := env.getD DEFAULT_ID
  ((splitOnComma ids_env.toList).filter
      (fun seg => !(pyStrip seg).isEmpty)).map
    (fun seg => (pyStrip seg).asString)

/-- JSON values, as produced by `resp.json()` (Python `json.loads`). -/
inductive Json where
  | null
  | bool (b : Bool)
  | num (n : Int)
  | str (s : String)
  | arr (elems : List Json)
  | obj (fields : List (String × Json))

/-- Result of a Python membership test `x in data`. -/
inductive MemResult where
  | found
  | notFound
  | typeErr
deriving DecidableEq

/-- Key membership in a decoded JSON object (Python `x in dict`). -/
def hasKey (x : String) (fields : List (String × Json)) : Bool :=
  fields.any (fun kv => kv.1 == x)

/-- Whether `needle` occurs at the head of `hay`. -/
def pfxMatch : List Char → List Char → Bool
  | [], _ => true
  | _ :: _, [] => false
  | a :: as, b :: bs => a == b && pfxMatch as bs

/-- Whether `needle` occurs as a contiguous substring of `hay`
(Python `needle in hay` for strings). -/
def substrIn (needle : List Char) : List Char → Bool
  | [] => needle.isEmpty
  | b :: bs => pfxMatch needle (b :: bs) || substrIn needle bs

/-- Python semantics of `x in data` for a JSON-decoded value `data`: key
lookup on a dict, element equality on a list, substring test on a string,
and `TypeError` on `null`, booleans and numbers. -/
def pyContains (x : String) : Json → MemResult
  | .obj fields => if hasKey x fields then .found else .notFound
  | .arr elems =>
    if elems.any (fun e => match e with | .str s => s == x | _ => false)
    then .found else .notFound
  | .str s => if substrIn x.toList s.toList then .found else .notFound
  | .null => .typeErr
  | .bool _ => .typeErr
  | .num _ => .typeErr

/-- The classified result of one request, recorded through
`resp.success()` / `resp.failure(reason)`. -/
inductive Outcome where
  | success
  | failure (reason : String)
deriving DecidableEq

/-- What the classification block does with a response: either it records
exactly one `Outcome`, or it raises an uncaught `TypeError` (a 200 response
whose body decodes to a scalar, at `"user" not in data`). -/
inductive ClassifyResult where
  | outcome (o : Outcome)
  | typeErr
deriving DecidableEq

/-- The response-classification block of `get_user`, as a function of the
HTTP status code and the decoded body (`none` means `resp.json()` raised
`json.JSONDecodeError`). -/
def classify (status : Nat) (body : Option Json) : ClassifyResult :=
  if status = 200 then
    match body with
    | none => .outcome (.failure "Invalid JSON response")
    | some data =>
      match pyContains "user" data with
      | .notFound => .outcome (.failure "Missing 'user' field in response")
      | .found => .outcome .success
      | .typeErr => .typeErr
  else if status = 404 then
    .outcome (.failure "User not found")
  else
    .outcome (.failure ("Unexpected status code: " ++ toString status))

/-- An HTTP request as issued by `self.client.get(...)`. -/
structure Request where
  method : String
  path : String
  headers : List (String × String)
deriving DecidableEq

/-- The per-user mutable state: the `self.headers` dictionary. -/
structure UserState where
  headers : List (String × String)
deriving DecidableEq

/-- The header dictionary assigned by `ApiUser.on_start`. -/
def initialHeaders : List (String × String) :=
  [("Content-Type", "application/json"),
   ("User-Agent", "Locust/FastApiUser"),
   ("Connection", "keep-alive")]

/-- Model of `ApiUser.on_start`: initialize the user session state. -/
def on_start : UserState := { headers := initialHeaders }

/-- The request constructed by `get_user` from the configured id list:
`self.client.get(f"/api/v1/get/user/{TEST_USER_IDS[0]}", headers=self.headers)`.
An empty list makes `TEST_USER_IDS[0]` raise `IndexError` before any request
is issued, modelled as `none`. -/
def buildRequest (ids : List String) (headers : List (String × String)) :
    Option Request :=
  match ids with
  | [] => none
  | uid :: _ =>
    some { method := "GET", path := "/api/v1/get/user/" ++ uid, headers := headers }

/-- One invocation of the `get_user` task.  `respond` is the abstract
transport: it maps the issued request to a status code and decoded body.
The result is the list of requests actually issued, the classification
result (`none` when `IndexError` aborts before the request), and the user
state after the invocation (the method never writes `self.headers`). -/
def get_user (st : UserState) (ids : List String)
    (respond : Request → Nat × Option Json) :
    (List Request × Option ClassifyResult) × UserState :=
  match buildRequest ids st.headers with
  | none => (([], none), st)
  | some req => (([req], some (classify (respond req).1 (respond req).2)), st)

/-- A sequence of `get_user` iterations by one user, threading the user
state; returns every request issued. -/
def runIterations (ids : List String)
    (responds : List (Request → Nat × Option Json)) (st : UserState) :
    List Request :=
  match responds with
  | [] => []
  | f :: fs => (get_user st ids f).1.1 ++ runIterations ids fs (get_user st ids f).2

/-- Decoded bodies on which the membership test `"user" not in data` is
defined without a `TypeError`: dicts, lists and strings. -/
def memSafe : Json → Bool
  | .obj _ => true
  | .arr _ => true
  | .str _ => true
  | .null => false
  | .bool _ => false
  | .num _ => false

/-- On a membership-safe body the Python `in` test never raises. -/
theorem pyContains_safe (x : String) (data : Json) (h : memSafe data = true) :
    pyContains x data ≠ MemResult.typeErr := by
  cases data with
  | obj fields => simp only [pyContains]; split <;> simp
  | arr elems => simp only [pyContains]; split <;> simp
  | str s => simp only [pyContains]; split <;> simp
  | null => simp [memSafe] at h
  | bool b => simp [memSafe] at h
  | num n => simp [memSafe] at h

/-- The classification block records exactly one outcome whenever the body
is absent (decode error) or membership-safe. -/
theorem classify_total (status : Nat) (body : Option Json)
    (h : ∀ data, body = some data → memSafe data = true) :
    ∃ o : Outcome, classify status body = ClassifyResult.outcome o := by
  unfold classify
  by_cases h200 : status = 200
  · rw [if_pos h200]
    cases body with
    | none => exact ⟨Outcome.failure "Invalid JSON response", rfl⟩
    | some data =>
      have hmem := pyContains_safe "user" data (h data rfl)
      rcases hq : pyContains "user" data with _ | _ | _
      · exact ⟨Outcome.success, by simp [hq]⟩
      · exact ⟨Outcome.failure "Missing 'user' field in response", by simp [hq]⟩
      · exact absurd hq hmem
  · rw [if_neg h200]
    by_cases h404 : status = 404
    · rw [if_pos h404]; exact ⟨_, rfl⟩
    · rw [if_neg h404]; exact ⟨_, rfl⟩

/-- The user state is never modified by an invocation of `get_user`. -/
theorem get_user_snd (st : UserState) (ids : List String)
    (f : Request → Nat × Option Json) : (get_user st ids f).2 = st := by
  cases ids <;> rfl

/-- Every request issued by one invocation carries the current headers. -/
theorem get_user_headers (st : UserState) (ids : List String)
    (f : Request → Nat × Option Json) (req : Request)
    (h : req ∈ (get_user st ids f).1.1) : req.headers = st.headers := by
  cases ids with
  | nil => simp [get_user, buildRequest] at h
  | cons uid rest =>
    simp only [get_user, buildRequest, List.mem_singleton] at h
    rw [h]

/-- Every request issued across a sequence of iterations carries the
headers the user state started with. -/
theorem runIterations_headers (ids : List String)
    (responds : List (Request → Nat × Option Json)) (st : UserState)
    (req : Request) (h : req ∈ runIterations ids responds st) :
    req.headers = st.headers := by
  induction responds with
  | nil => simp [runIterations] at h
  | cons f fs ih =>
    simp only [runIterations, List.mem_append] at h
    rcases h with h | h
    · exact get_user_headers st ids f req h
    · rw [get_user_snd] at h
      exact ih h

/-- Claim C1 as stated is false at status 200 with body `{}`: the recorded
failure reason is the code's literal message, not "missing field". -/
theorem C1_counterexample :
    classify 200 (some (Json.obj [])) ≠
      ClassifyResult.outcome (Outcome.failure "missing field") := by decide

/-- Claim C1 (amended): for a 200 response whose body decodes to a JSON
object, the outcome is Success exactly when the object has a "user" key and
Failure "Missing 'user' field in response" otherwise; a body that fails to
decode gives Failure "Invalid JSON response". -/
theorem C1_claim :
    (∀ fields : List (String × Json),
        classify 200 (some (Json.obj fields)) =
          ClassifyResult.outcome
            (if hasKey "user" fields then Outcome.success
             else Outcome.failure "Missing 'user' field in response")) ∧
    classify 200 none =
      ClassifyResult.outcome (Outcome.failure "Invalid JSON response") := by
  constructor
  · intro fields
    cases hk : hasKey "user" fields <;> simp [classify, pyContains, hk]
  · rfl

/-- Claim C2 as stated is false at status 404: the recorded failure reason
is "User not found", not "not found". -/
theorem C2_counterexample :
    classify 404 none ≠ ClassifyResult.outcome (Outcome.failure "not found") := by
  decide

/-- Claim C2 (amended): every non-200 response is classified independently
of its body as Failure "User not found" when the status is 404 and as
Failure "Unexpected status code: {code}" otherwise. -/
theorem C2_claim (status : Nat) (h : status ≠ 200) (body : Option Json) :
    classify status body =
      ClassifyResult.outcome
        (Outcome.failure
          (if status = 404 then "User not found"
           else "Unexpected status code: " ++ toString status)) := by
  unfold classify
  rw [if_neg h]
  by_cases h404 : status = 404
  · rw [if_pos h404, if_pos h404]
  · rw [if_neg h404, if_neg h404]

/-- Claim C2 amended, instantiated at a 500 response. -/
theorem C2_claim_witness :
    classify 500 none =
      ClassifyResult.outcome
        (Outcome.failure
          (if 500 = 404 then "User not found"
           else "Unexpected status code: " ++ toString 500)) :=
  C2_claim 500 (by decide) none

/-- Claim C3 as stated is false: a 200 response whose body decodes to the
JSON scalar `5` makes the membership test raise an uncaught `TypeError`, so
no Outcome is recorded for that invocation. -/
theorem C3_counterexample :
    ¬ ∃ o : Outcome,
        (get_user on_start [DEFAULT_ID] (fun _ => (200, some (Json.num 5)))).1.2 =
          some (ClassifyResult.outcome o) := by
  rintro ⟨o, h⟩
  exact ClassifyResult.noConfusion (Option.some.inj h)

/-- Claim C3 (amended): whenever the configured id list is non-empty and
every decoded response body is a JSON object, array or string (or fails to
decode), one invocation of `get_user` records exactly one Outcome; a 200
response decoding to a scalar instead raises an uncaught `TypeError`. -/
theorem C3_claim (st : UserState) (ids : List String)
    (respond : Request → Nat × Option Json)
    (hne : ids ≠ [])
    (hsafe : ∀ req data, (respond req).2 = some data → memSafe data = true) :
    ∃ o : Outcome,
      (get_user st ids respond).1.2 = some (ClassifyResult.outcome o) := by
  cases ids with
  | nil => exact absurd rfl hne
  | cons uid rest =>
    obtain ⟨o, ho⟩ :=
      classify_total
        (respond { method := "GET", path := "/api/v1/get/user/" ++ uid,
                   headers := st.headers }).1
        (respond { method := "GET", path := "/api/v1/get/user/" ++ uid,
                   headers := st.headers }).2
        (fun data hd => hsafe _ data hd)
    exact ⟨o, congrArg some ho⟩

/-- Claim C3 amended, instantiated at one user, one id and a 200 response
with body `{}`. -/
theorem C3_claim_witness :
    ∃ o : Outcome,
      (get_user on_start ["a"] (fun _ => (200, some (Json.obj [])))).1.2 =
        some (ClassifyResult.outcome o) :=
  C3_claim on_start ["a"] (fun _ => (200, some (Json.obj [])))
    (by decide)
    (fun req data hd => by
      injection hd with h2
      rw [← h2]
      rfl)

/-- Claim C4: the configured id list splits the environment value on
commas, strips each segment, discards empty segments, and falls back to the
single default identifier when the variable is unset. -/
theorem C4_claim :
    TEST_USER_IDS none = [DEFAULT_ID] ∧
    ∀ s : String,
      TEST_USER_IDS (some s) =
        (((splitOnComma s.toList).map pyStrip).filter
            (fun seg => !seg.isEmpty)).map List.asString := by
  constructor
  · decide
  · intro s
    simp only [TEST_USER_IDS, Option.getD, List.filter_map, List.map_map,
      Function.comp_def]

/-- Claim C5: an invocation of `get_user` depends only on the head of the
configured id list; the tail is never exercised. -/
theorem C5_claim :
    ∀ (st : UserState) (respond : Request → Nat × Option Json)
      (uid : String) (rest : List String),
      get_user st (uid :: rest) respond = get_user st [uid] respond :=
  fun _ _ _ _ => rfl

/-- Claim C6: with a non-empty id list, the one issued request is an HTTP
GET whose path is exactly /api/v1/get/user/{id} for the head identifier. -/
theorem C6_claim :
    ∀ (st : UserState) (respond : Request → Nat × Option Json)
      (uid : String) (rest : List String),
      (get_user st (uid :: rest) respond).1.1 =
        [{ method := "GET", path := "/api/v1/get/user/" ++ uid,
           headers := st.headers }] :=
  fun _ _ _ _ => rfl

/-- Claim C7: after `on_start`, every request issued across any sequence of
`get_user` iterations carries exactly the three fixed headers. -/
theorem C7_claim :
    ∀ (ids : List String) (responds : List (Request → Nat × Option Json))
      (req : Request), req ∈ runIterations ids responds on_start →
      req.headers =
        [("Content-Type", "application/json"),
         ("User-Agent", "Locust/FastApiUser"),
         ("Connection", "keep-alive")] := by
  intro ids responds req h
  rw [runIterations_headers ids responds on_start req h]
  rfl

/-- Claim C7, instantiated at the default id list and one iteration. -/
theorem C7_claim_witness :
    Request.headers
        { method := "GET", path := "/api/v1/get/user/" ++ DEFAULT_ID,
          headers := initialHeaders } =
      [("Content-Type", "application/json"),
       ("User-Agent", "Locust/FastApiUser"),
       ("Connection", "keep-alive")] :=
  C7_claim (TEST_USER_IDS none) [fun _ => (200, none)]
    { method := "GET", path := "/api/v1/get/user/" ++ DEFAULT_ID,
      headers := initialHeaders }
    (by decide)

/-- Claim C8: one invocation of `get_user` issues at most one request, and
exactly one whenever the id list is non-empty, whatever the response and
however it is classified: no retry happens at this layer. -/
theorem C8_claim :
    ∀ (st : UserState) (respond : Request → Nat × Option Json),
      (∀ ids : List String, (get_user st ids respond).1.1.length ≤ 1) ∧
      ∀ (uid : String) (rest : List String),
        (get_user st (uid :: rest) respond).1.1.length = 1 := by
  intro st respond
  refine ⟨fun ids => ?_, fun uid rest => rfl⟩
  cases ids <;> simp [get_user, buildRequest]

/-- Claim C9: an environment value whose comma-segments all strip to the
empty string yields an empty id list (no default fallback), and every
invocation of `get_user` then aborts on the `TEST_USER_IDS[0]` subscript
before issuing any request and produces no Outcome. -/
theorem C9_claim (s : String)
    (h : (splitOnComma s.toList).all (fun seg => (pyStrip seg).isEmpty) = true) :
    TEST_USER_IDS (some s) = [] ∧
    ∀ (st : UserState) (respond : Request → Nat × Option Json),
      get_user st (TEST_USER_IDS (some s)) respond = (([], none), st) := by
  have hempty : TEST_USER_IDS (some s) = [] := by
    simp only [TEST_USER_IDS, Option.getD, List.map_eq_nil_iff,
      List.filter_eq_nil_iff]
    intro a ha
    have := (List.all_eq_true.mp h) a ha
    simp [this]
  refine ⟨hempty, fun st respond => ?_⟩
  rw [hempty]
  rfl

/-- Claim C9, instantiated at the value " , ". -/
theorem C9_claim_witness : TEST_USER_IDS (some " , ") = [] :=
  (C9_claim " , " (by decide)).1

/-- Claim C10: classification depends only on the status code, whether the
body decodes, and the result of the "user" membership test; in particular
any two 200 responses whose objects both contain a "user" key — whatever
their other fields, such as "source" — classify identically as Success. -/
theorem C10_claim :
    (∀ (status : Nat) (b₁ b₂ : Json),
        pyContains "user" b₁ = pyContains "user" b₂ →
        classify status (some b₁) = classify status (some b₂)) ∧
    ∀ (f₁ f₂ : List (String × Json)),
      hasKey "user" f₁ = true → hasKey "user" f₂ = true →
      classify 200 (some (Json.obj f₁)) = ClassifyResult.outcome Outcome.success ∧
      classify 200 (some (Json.obj f₁)) = classify 200 (some (Json.obj f₂)) := by
  constructor
  · intro status b₁ b₂ hmem
    by_cases h200 : status = 200
    · simp [classify, h200, hmem]
    · simp [classify, h200]
  · intro f₁ f₂ h1 h2
    constructor
    · simp [classify, pyContains, h1]
    · simp [classify, pyContains, h1, h2]

/-- Claim C10, instantiated at two objects that differ in a "source"
field. -/
theorem C10_claim_witness :
    classify 200 (some (Json.obj [("user", Json.obj [])])) =
        ClassifyResult.outcome Outcome.success ∧
    classify 200 (some (Json.obj [("user", Json.obj [])])) =
      classify 200
        (some (Json.obj [("user", Json.obj []), ("source", Json.str "cache")])) :=
  C10_claim.2 [("user", Json.obj [])]
    [("user", Json.obj []), ("source", Json.str "cache")]
    (by decide) (by decide)
